import Mathlib

/-!
Verification of the lazy query-set and predicate-combinator engine of the
qdjango repository (`src/db/QDjangoQuerySet.h`).

The repository ships the full header of `QDjangoQuerySet`, whose
`const_iterator` member functions are defined inline and are embedded here
directly from that source.  The bodies of the chaining and execution
operations (`all`, `filter`, `exclude`, `none`, `orderBy`, `limit`,
`selectRelated`, `count`, `size`, `at`, `get`) and of the predicate class
`QDjangoWhere` are declared in the header but their implementation files are
not part of the sources; those operations are modelled from the
specification, as marked on each definition.

Machine integers of the C++ code are modelled as `Nat`/`Int`; the external
execution interface is modelled by the ordered list of rows the unlimited,
unfiltered query would return, together with an explicit count of execution
calls issued by each operation.
-/

set_option autoImplicit false

/-- Modelled from the spec: the supported comparison operators of a predicate
leaf.  Only the relational subset is needed by the claims; the operator set is
closed, so constructing an unsupported operator is impossible by typing. -/
inductive CompOp
  | eq | ne | lt | le | gt | ge
  deriving DecidableEq, Repr

/-- Modelled from the spec: SQL text of a comparison operator. -/
def CompOp.text : CompOp → String
  | .eq => "="
  | .ne => "<>"
  | .lt => "<"
  | .le => "<="
  | .gt => ">"
  | .ge => ">="

/-- Modelled from the spec: the predicate expression tree of `QDjangoWhere`
(§3 "Predicate Node"): a tagged variant with `Comparison`, `Not`, `And`,
`Or`, `Empty` (matches nothing) and `All` (matches everything), immutable
once constructed.  Implementation of `QDjangoWhere` is not under `src/`. -/
inductive QDjangoWhere
  | all
  | empty
  | comparison (column : String) (op : CompOp) (value : Int)
  | not (w : QDjangoWhere)
  | and (l r : QDjangoWhere)
  | or (l r : QDjangoWhere)
  deriving DecidableEq, Repr

/-- Modelled from the spec: the `and(other)` combinator (§4.1).  It is
identity-preserving: `and`-ing with `All` returns the other operand
unchanged; otherwise a new `And` node is built. -/
def QDjangoWhere.andWith (a b : QDjangoWhere) : QDjangoWhere :=
  if a = .all then b
  else if b = .all then a
  else .and a b

/-- Modelled from the spec: the `or(other)` combinator (§4.1), identity
preserving with respect to `Empty`. -/
def QDjangoWhere.orWith (a b : QDjangoWhere) : QDjangoWhere :=
  if a = .empty then b
  else if b = .empty then a
  else .or a b

/-- Modelled from the spec: `negate()` wraps in `Not`; double negation is not
collapsed. -/
def QDjangoWhere.negate (a : QDjangoWhere) : QDjangoWhere :=
  .not a

/-- Whether the node is an `Or` node (used for parenthesisation). -/
def QDjangoWhere.isOrNode : QDjangoWhere → Bool
  | .or _ _ => true
  | _ => false

/-- Whether the node is an `And` node (used for parenthesisation). -/
def QDjangoWhere.isAndNode : QDjangoWhere → Bool
  | .and _ _ => true
  | _ => false

/-- Modelled from the spec: `compile`'s condition-fragment component (§4.1).
Each leaf's column is resolved through the external metadata interface
(`resolve`); comparison leaves are parenthesised with a positional
placeholder; conjunction chains are rendered flat (`a AND b AND c`) with
parentheses only around an `Or` child, and dually for disjunction, so that
re-compiling the same tree is deterministic. -/
def QDjangoWhere.fragment (resolve : String → String) : QDjangoWhere → String
  | .all => ""
  | .empty => "FALSE"
  | .comparison c op _ => "(" ++ resolve c ++ " " ++ op.text ++ " ?)"
  | .not w => "NOT (" ++ w.fragment resolve ++ ")"
  | .and l r =>
      (if l.isOrNode then "(" ++ l.fragment resolve ++ ")" else l.fragment resolve)
        ++ " AND "
        ++ (if r.isOrNode then "(" ++ r.fragment resolve ++ ")" else r.fragment resolve)
  | .or l r =>
      (if l.isAndNode then "(" ++ l.fragment resolve ++ ")" else l.fragment resolve)
        ++ " OR "
        ++ (if r.isAndNode then "(" ++ r.fragment resolve ++ ")" else r.fragment resolve)

/-- Modelled from the spec: `compile`'s bound-parameter component (§4.1), the
ordered list of bound values in left-to-right tree order. -/
def QDjangoWhere.boundParams : QDjangoWhere → List Int
  | .all => []
  | .empty => []
  | .comparison _ _ v => [v]
  | .not w => w.boundParams
  | .and l r => l.boundParams ++ r.boundParams
  | .or l r => l.boundParams ++ r.boundParams

/-- A materialised record object: a field valuation, modelling the objects the
external population interface produces from rows. -/
abbrev ModelObject := List (String × Int)

/-- The default-constructed object, modelling a freshly constructed `QObject`
before any row has been loaded into it. -/
def defaultObject : ModelObject := []

/-- Modelled from the spec: evaluation of a predicate tree against one record,
standing in for the external execution interface's row matching (`Empty`
matches nothing, `All` matches everything; a comparison on a field the record
does not carry matches nothing). -/
def QDjangoWhere.matches (w : QDjangoWhere) (o : ModelObject) : Bool :=
  match w with
  | .all => true
  | .empty => false
  | .comparison c op v =>
      match o.lookup c with
      | some x =>
          match op with
          | .eq => x == v
          | .ne => x != v
          | .lt => decide (x < v)
          | .le => decide (x ≤ v)
          | .gt => decide (x > v)
          | .ge => decide (x ≥ v)
      | none => false
  | .not w => ! w.matches o
  | .and l r => l.matches o && r.matches o
  | .or l r => l.matches o || r.matches o

/-- Modelled from the spec: the immutable Query Specification (§3): predicate
tree (default `All`), ordering key list, window marks and related-prefetch
flag.  The window is kept as absolute marks relative to the unlimited result:
`lowMark` is the offset, `highMark` the optional exclusive end (none =
unlimited). -/
structure QuerySpec where
  whereClause : QDjangoWhere
  orderKeys : List String
  lowMark : Nat
  highMark : Option Nat
  relatedFlag : Bool
  deriving DecidableEq, Repr

/-- The default Query Specification: predicate `All`, no ordering, offset 0,
no limit, related prefetch off. -/
def QuerySpec.default : QuerySpec :=
  { whereClause := .all, orderKeys := [], lowMark := 0, highMark := none,
    relatedFlag := false }

/-- Modelled from the spec: a Query-Set handle, owning one Query Specification
and one Result Cache (ordered materialised objects, the cache length being
the high-water mark) with its exhausted flag, plus the per-instance cached
count.  `QDjangoQuerySet`'s member implementations are not under `src/`. -/
structure QDjangoQuerySet where
  querySpec : QuerySpec
  cache : List ModelObject
  exhausted : Bool
  countCache : Option Nat
  deriving DecidableEq, Repr

/-- A freshly constructed Query-Set over the given specification: empty
cache, not exhausted, no cached count. -/
def QDjangoQuerySet.fresh (s : QuerySpec) : QDjangoQuerySet :=
  { querySpec := s, cache := [], exhausted := false, countCache := none }

/-- The initial Query-Set of a record type (factory construction). -/
def QDjangoQuerySet.initial : QDjangoQuerySet :=
  QDjangoQuerySet.fresh QuerySpec.default

/-- Modelled from the spec: the rows the execution interface returns for a
specification, given the ordered rows `rows` of the underlying table: the
matching rows, windowed by the absolute marks. -/
def QuerySpec.windowRows (s : QuerySpec) (rows : List ModelObject) : List ModelObject :=
  let m := rows.filter (fun o => s.whereClause.matches o)
  match s.highMark with
  | none => m.drop s.lowMark
  | some h => (m.take h).drop s.lowMark

/-- Modelled from the spec: `all()` — a new Query-Set with the same
specification and a fresh empty cache. -/
def QDjangoQuerySet.all (qs : QDjangoQuerySet) : QDjangoQuerySet :=
  QDjangoQuerySet.fresh qs.querySpec

/-- Modelled from the spec: `filter(p)` combines the new predicate with the
existing one via `and` and returns a new Query-Set with a fresh empty
cache. -/
def QDjangoQuerySet.filter (qs : QDjangoQuerySet) (p : QDjangoWhere) : QDjangoQuerySet :=
  QDjangoQuerySet.fresh { qs.querySpec with whereClause := qs.querySpec.whereClause.andWith p }

/-- Modelled from the spec: `exclude(p)` combines via `and(negate(p))` and
returns a new Query-Set with a fresh empty cache. -/
def QDjangoQuerySet.exclude (qs : QDjangoQuerySet) (p : QDjangoWhere) : QDjangoQuerySet :=
  QDjangoQuerySet.fresh { qs.querySpec with whereClause := qs.querySpec.whereClause.andWith p.negate }

/-- Modelled from the spec: `none()` replaces the predicate with `Empty` and
returns a new Query-Set with a fresh empty cache. -/
def QDjangoQuerySet.none (qs : QDjangoQuerySet) : QDjangoQuerySet :=
  QDjangoQuerySet.fresh { qs.querySpec with whereClause := .empty }

/-- Modelled from the spec: `orderBy(keys)` replaces (not appends to) the
ordering list and returns a new Query-Set with a fresh empty cache. -/
def QDjangoQuerySet.orderBy (qs : QDjangoQuerySet) (keys : List String) : QDjangoQuerySet :=
  QDjangoQuerySet.fresh { qs.querySpec with orderKeys := keys }

/-- Modelled from the spec: `limit(pos, length)` composes with any existing
window by re-basing: the new offset is relative to the previous window's
start, and the new end is clamped so the combined window never exceeds the
previous window's end if one was set; a negative `length` means "unbounded
from offset". -/
def QDjangoQuerySet.limit (qs : QDjangoQuerySet) (pos : Nat) (length : Int) : QDjangoQuerySet :=
  let low := qs.querySpec.lowMark + pos
  let high :=
    if length < 0 then qs.querySpec.highMark
    else some (match qs.querySpec.highMark with
               | .none => low + length.toNat
               | .some h => min (low + length.toNat) h)
  QDjangoQuerySet.fresh { qs.querySpec with lowMark := low, highMark := high }

/-- Modelled from the spec: `selectRelated()` turns the related-prefetch flag
on and returns a new Query-Set with a fresh empty cache. -/
def QDjangoQuerySet.selectRelated (qs : QDjangoQuerySet) : QDjangoQuerySet :=
  QDjangoQuerySet.fresh { qs.querySpec with relatedFlag := true }

/-- The chaining operations of the Query-Set interface, as a closed set. -/
inductive ChainOp
  | allOp
  | filterOp (p : QDjangoWhere)
  | excludeOp (p : QDjangoWhere)
  | noneOp
  | orderByOp (keys : List String)
  | limitOp (pos : Nat) (length : Int)
  | selectRelatedOp

/-- Interpretation of a chaining operation on a Query-Set. -/
def ChainOp.run : ChainOp → QDjangoQuerySet → QDjangoQuerySet
  | .allOp, qs => qs.all
  | .filterOp p, qs => qs.filter p
  | .excludeOp p, qs => qs.exclude p
  | .noneOp, qs => qs.none
  | .orderByOp keys, qs => qs.orderBy keys
  | .limitOp pos length, qs => qs.limit pos length
  | .selectRelatedOp, qs => qs.selectRelated

/-- A store of live Query-Set objects, indexed by handle identity; models the
heap on which the C++ chaining calls could, in principle, have mutated their
receiver. -/
structure QuerySetStore where
  sets : List QDjangoQuerySet

/-- Modelled from the spec: running a chaining call on the Query-Set named by
`sid` allocates the derived Query-Set as a new object and returns its id;
the receiver's storage is untouched. -/
def QuerySetStore.chainAt (w : QuerySetStore) (sid : Nat) (op : ChainOp) :
    QuerySetStore × Nat :=
  match w.sets[sid]? with
  | .some s => (⟨w.sets ++ [op.run s]⟩, w.sets.length)
  | .none => (w, w.sets.length)

/-- Modelled from the spec: the paged-fetch batch size, an
implementation-chosen constant (§4.2's suggested default). -/
def batchSize : Nat := 255

/-- Modelled from the spec: `at(index)` (§4.2) with an explicit count of
execution calls.  Returns the element, the updated Query-Set and the number
of calls issued to the external execution interface: a cache hit issues
none; an exhausted set fails without a query; an `Empty` predicate
short-circuits without a query, marking the set exhausted; otherwise one
paged query fetches from the high-water mark through at least `index`,
appends to the cache and sets the exhausted flag when the page returned
fewer rows than requested. -/
def QDjangoQuerySet.at (rows : List ModelObject) (qs : QDjangoQuerySet) (index : Nat) :
    Option ModelObject × QDjangoQuerySet × Nat :=
  match qs.cache[index]? with
  | .some o => (.some o, qs, 0)
  | .none =>
    if qs.exhausted then (.none, qs, 0)
    else if qs.querySpec.whereClause = .empty then
      (.none, { qs with exhausted := true }, 0)
    else
      let want := max batchSize (index + 1 - qs.cache.length)
      let fetched := ((qs.querySpec.windowRows rows).drop qs.cache.length).take want
      let qs' : QDjangoQuerySet :=
        { qs with cache := qs.cache ++ fetched,
                  exhausted := decide (fetched.length < want) }
      (qs'.cache[index]?, qs', 1)

/-- Modelled from the spec: `at(m_offset)` as called from the iterator, whose
offset is a C++ `int`; a negative index is never in the cache and fails. -/
def QDjangoQuerySet.atI (rows : List ModelObject) (qs : QDjangoQuerySet) (index : Int) :
    Option ModelObject × QDjangoQuerySet × Nat :=
  if index < 0 then (.none, qs, 0)
  else QDjangoQuerySet.at rows qs index.toNat

/-- Modelled from the spec: `count()` (§4.2) with an explicit count of
execution calls: an `Empty` predicate short-circuits without a query; a
per-instance cached count is reused without a query; otherwise one COUNT
query over the predicate (ordering/limit irrelevant to count) is issued and
its result cached. -/
def QDjangoQuerySet.count (rows : List ModelObject) (qs : QDjangoQuerySet) :
    Nat × QDjangoQuerySet × Nat :=
  if qs.querySpec.whereClause = .empty then
    (0, { qs with countCache := some 0 }, 0)
  else
    match qs.countCache with
    | .some n => (n, qs, 0)
    | .none =>
      let n := (rows.filter (fun o => qs.querySpec.whereClause.matches o)).length
      (n, { qs with countCache := some n }, 1)

/-- Modelled from the spec: `size()` (§4.2) with an explicit count of
execution calls: it materialises the full bounded result into the cache and
returns its length; an `Empty` predicate or an already exhausted cache
issues no query. -/
def QDjangoQuerySet.size (rows : List ModelObject) (qs : QDjangoQuerySet) :
    Nat × QDjangoQuerySet × Nat :=
  if qs.querySpec.whereClause = .empty then
    (qs.cache.length, { qs with exhausted := true }, 0)
  else if qs.exhausted then (qs.cache.length, qs, 0)
  else
    let win := qs.querySpec.windowRows rows
    let qs' : QDjangoQuerySet :=
      { qs with cache := qs.cache ++ win.drop qs.cache.length, exhausted := true }
    (qs'.cache.length, qs', 1)

/-- Failure modes of `get`. -/
inductive GetFailure
  | doesNotExist
  | multipleObjectsReturned
  deriving DecidableEq, Repr

/-- Modelled from the spec: `get(p)` (§4.2) compiles a one-off query
combining the current predicate with `p` via `and`, limited to at most 2
rows; zero rows fail `DoesNotExist`, more than one row fails
`MultipleObjectsReturned`, exactly one row is returned. -/
def QDjangoQuerySet.get (rows : List ModelObject) (qs : QDjangoQuerySet) (p : QDjangoWhere) :
    Except GetFailure ModelObject :=
  match (rows.filter
      (fun o => (qs.querySpec.whereClause.andWith p).matches o)).take 2 with
  | [] => .error .doesNotExist
  | [o] => .ok o
  | _ => .error .multipleObjectsReturned

/-- The `QDjangoQuerySet::const_iterator` state, from the header source:
`m_querySet` (a possibly null pointer to the iterated Query-Set, modelled by
an optional identity), the mutable memo `m_fetched`/`m_object`, and the
cursor `m_offset` (a C++ `int`, modelled as `Int`). -/
structure const_iterator where
  m_querySet : Option Nat
  m_fetched : Int
  m_object : ModelObject
  m_offset : Int
  deriving DecidableEq, Repr

/-- The default constructor: null Query-Set, memo sentinel `-1`, offset 0
(source lines 102-107). -/
def const_iterator.default : const_iterator :=
  { m_querySet := none, m_fetched := -1, m_object := defaultObject, m_offset := 0 }

/-- The private constructor `const_iterator(querySet, offset)` (source lines
117-122): memo sentinel `-1`, default-constructed `m_object`. -/
def const_iterator.mkAt (qsId : Option Nat) (offset : Int) : const_iterator :=
  { m_querySet := qsId, m_fetched := -1, m_object := defaultObject, m_offset := offset }

/-- The copy constructor (source lines 110-115): copies `m_querySet` and
`m_offset` but resets `m_fetched` to `-1` and default-constructs
`m_object`. -/
def const_iterator.copy (it : const_iterator) : const_iterator :=
  { m_querySet := it.m_querySet, m_fetched := -1, m_object := defaultObject,
    m_offset := it.m_offset }

/-- `operator==` (source lines 144-147): compares the Query-Set pointers and
the offsets. -/
def const_iterator.eqIter (a b : const_iterator) : Bool :=
  a.m_querySet == b.m_querySet && a.m_offset == b.m_offset

/-- `operator!=` (source lines 154-157): pointers differ or offsets differ. -/
def const_iterator.neIter (a b : const_iterator) : Bool :=
  a.m_querySet != b.m_querySet || a.m_offset != b.m_offset

/-- Prefix `operator++` (source line 202): increments the offset in place. -/
def const_iterator.incr (it : const_iterator) : const_iterator :=
  { it with m_offset := it.m_offset + 1 }

/-- Prefix `operator--` (source line 248): decrements the offset in place. -/
def const_iterator.decr (it : const_iterator) : const_iterator :=
  { it with m_offset := it.m_offset - 1 }

/-- `operator+=` (source line 218): adds `i` to the offset in place. -/
def const_iterator.addAssign (it : const_iterator) (i : Int) : const_iterator :=
  { it with m_offset := it.m_offset + i }

/-- `operator-=` (source line 232): subtracts `i` from the offset in place. -/
def const_iterator.subAssign (it : const_iterator) (i : Int) : const_iterator :=
  { it with m_offset := it.m_offset - i }

/-- `operator+` (source line 225): `const_iterator(m_querySet, m_offset + i)`. -/
def const_iterator.add (it : const_iterator) (i : Int) : const_iterator :=
  const_iterator.mkAt it.m_querySet (it.m_offset + i)

/-- `operator-` on an integer (source line 239): `const_iterator(m_querySet,
m_offset - i)`. -/
def const_iterator.sub (it : const_iterator) (i : Int) : const_iterator :=
  const_iterator.mkAt it.m_querySet (it.m_offset - i)

/-- `operator-` on another iterator (source line 263): the difference of the
offsets. -/
def const_iterator.distTo (a b : const_iterator) : Int :=
  a.m_offset - b.m_offset

/-- Result of dereferencing an iterator: the returned object (none models the
null pointer `t()` returns on failure), the updated iterator and Query-Set
states, whether `at()` was invoked, and the number of execution calls. -/
structure DerefResult where
  result : Option ModelObject
  iter : const_iterator
  qs : QDjangoQuerySet
  atInvoked : Bool
  execCalls : Nat
  deriving DecidableEq, Repr

/-- `const_iterator::t()` (source lines 266-275): if `m_fetched != m_offset`
and the Query-Set pointer is non-null, call `at(m_offset, &m_object)` and on
success set `m_fetched = m_offset`; finally return `&m_object` if
`m_fetched == m_offset`, else the null pointer.  The Query-Set the pointer
designates is passed explicitly, along with the execution interface's
rows. -/
def const_iterator.t (rows : List ModelObject) (qs : QDjangoQuerySet)
    (it : const_iterator) : DerefResult :=
  if it.m_fetched ≠ it.m_offset ∧ it.m_querySet.isSome then
    match QDjangoQuerySet.atI rows qs it.m_offset with
    | (.some o, qs', c) =>
        { result := .some o,
          iter := { it with m_fetched := it.m_offset, m_object := o },
          qs := qs', atInvoked := true, execCalls := c }
    | (.none, qs', c) =>
        { result := .none, iter := it, qs := qs', atInvoked := true, execCalls := c }
  else
    { result := if it.m_fetched = it.m_offset then .some it.m_object else .none,
      iter := it, qs := qs, atInvoked := false, execCalls := 0 }

/-- A one-row table used for concrete witnesses. -/
def demoRows : List ModelObject := [[("id", 1)]]

/-- A Query-Set whose cache has been warmed by a first successful `at(0)`
over `demoRows`; its cache holds the single row and it is exhausted. -/
def warmSet : QDjangoQuerySet :=
  (QDjangoQuerySet.at demoRows QDjangoQuerySet.initial 0).2.1

/-- Compile-level associativity of the `and` combinator: re-associating a
conjunction chain changes neither the condition fragment nor the bound
parameter list. -/
theorem QDjangoWhere.andWith_compile_assoc (resolve : String → String)
    (b P Q : QDjangoWhere) :
    ((b.andWith P).andWith Q).fragment resolve
        = (b.andWith (P.andWith Q)).fragment resolve
      ∧ ((b.andWith P).andWith Q).boundParams
        = (b.andWith (P.andWith Q)).boundParams := by
  by_cases hb : b = .all <;> by_cases hP : P = .all <;> by_cases hQ : Q = .all <;>
    simp only [QDjangoWhere.andWith, hb, hP, hQ, if_true, if_false, if_pos, if_neg,
      reduceIte] <;>
    simp_all [QDjangoWhere.andWith]
  constructor
  · simp [QDjangoWhere.fragment, QDjangoWhere.isOrNode, String.append_assoc]
  · simp [QDjangoWhere.boundParams]

/-- C1: every chaining operation (`all`, `filter`, `exclude`, `none`,
`orderBy`, `limit`, `selectRelated`) run on a stored Query-Set allocates a
new Query-Set (a new identity when the receiver exists) with a fresh empty
cache, and leaves the receiver's stored state — hence its observable count,
cached rows and exhausted flag — exactly as it was. -/
theorem chaining_returns_new_set_and_never_mutates_receiver :
    ∀ (w : QuerySetStore) (sid : Nat) (op : ChainOp),
      (w.chainAt sid op).1.sets[sid]? = w.sets[sid]?
      ∧ (sid < w.sets.length → (w.chainAt sid op).2 ≠ sid)
      ∧ ∀ qs : QDjangoQuerySet,
          (op.run qs).cache = [] ∧ (op.run qs).exhausted = false
            ∧ (op.run qs).countCache = none := by
  intro w sid op
  refine ⟨?_, ?_, ?_⟩
  · unfold QuerySetStore.chainAt
    cases h : w.sets[sid]? with
    | none => simp [h]
    | some s =>
        have hlt : sid < w.sets.length := (List.getElem?_eq_some.mp h).1
        simpa [List.getElem?_append_left hlt] using h
  · intro hlt
    unfold QuerySetStore.chainAt
    cases h : w.sets[sid]? with
    | none => simpa using Nat.ne_of_gt hlt
    | some s => simpa using Nat.ne_of_gt hlt
  · intro qs
    cases op <;>
      simp [ChainOp.run, QDjangoQuerySet.all, QDjangoQuerySet.filter,
        QDjangoQuerySet.exclude, QDjangoQuerySet.none, QDjangoQuerySet.orderBy,
        QDjangoQuerySet.limit, QDjangoQuerySet.selectRelated, QDjangoQuerySet.fresh]

/-- Witness for the receiver-preservation theorem at a concrete store. -/
theorem chaining_returns_new_set_witness :
    0 < (QuerySetStore.mk [QDjangoQuerySet.initial]).sets.length
      ∧ ((QuerySetStore.mk [QDjangoQuerySet.initial]).chainAt 0 .noneOp).2 ≠ 0 :=
  ⟨by decide,
   (chaining_returns_new_set_and_never_mutates_receiver
      (QuerySetStore.mk [QDjangoQuerySet.initial]) 0 .noneOp).2.1 (by decide)⟩

/-- C2: for all predicates `P`, `Q` and every Query-Set `S`, the condition
fragment compiled from `S.filter(P).filter(Q)` is identical to the one
compiled from `S.filter(P.and(Q))`, and so is the bound-parameter list (so
the fragments agree even without reordering parameters). -/
theorem filter_filter_compiles_like_filter_and :
    ∀ (resolve : String → String) (S : QDjangoQuerySet) (P Q : QDjangoWhere),
      ((S.filter P).filter Q).querySpec.whereClause.fragment resolve
          = (S.filter (P.andWith Q)).querySpec.whereClause.fragment resolve
        ∧ ((S.filter P).filter Q).querySpec.whereClause.boundParams
          = (S.filter (P.andWith Q)).querySpec.whereClause.boundParams := by
  intro resolve S P Q
  simpa [QDjangoQuerySet.filter, QDjangoQuerySet.fresh] using
    QDjangoWhere.andWith_compile_assoc resolve S.querySpec.whereClause P Q

/-- Post-condition of a single `at(i)` call: the returned element is exactly
the final cache's entry at `i`; a failure implies the exhausted flag is set
afterwards; and at most one execution call was issued. -/
theorem querySetAt_spec (rows : List ModelObject) (qs : QDjangoQuerySet) (i : Nat) :
    (QDjangoQuerySet.at rows qs i).1 = (QDjangoQuerySet.at rows qs i).2.1.cache[i]?
    ∧ ((QDjangoQuerySet.at rows qs i).1 = none →
        (QDjangoQuerySet.at rows qs i).2.1.exhausted = true)
    ∧ (QDjangoQuerySet.at rows qs i).2.2 ≤ 1 := by
  unfold QDjangoQuerySet.at
  cases h : qs.cache[i]? with
  | some o => simp [h]
  | none =>
    cases hex : qs.exhausted with
    | true => simp [h, hex]
    | false =>
      by_cases hw : qs.querySpec.whereClause = .empty
      · simp [h, hex, hw]
      · simp only [h, hex, hw, if_false, Bool.false_eq_true, reduceIte]
        refine ⟨trivial, ?_, by simp⟩
        intro hnone
        have hlen : qs.cache.length ≤ i := List.getElem?_eq_none_iff.mp h
        have hlen2 :
            qs.cache.length
              + (((qs.querySpec.windowRows rows).drop qs.cache.length).take
                  (max batchSize (i + 1 - qs.cache.length))).length ≤ i := by
          have := List.getElem?_eq_none_iff.mp hnone
          simpa [List.length_append] using this
        have hmax : i + 1 - qs.cache.length ≤ max batchSize (i + 1 - qs.cache.length) :=
          Nat.le_max_right _ _
        simp only [decide_eq_true_eq]
        omega

/-- A second `at(i)` with no intervening chaining is a pure cache hit: it
returns the same element, leaves the Query-Set unchanged and issues no
execution call. -/
theorem querySetAt_twice_from_cache (rows : List ModelObject)
    (qs : QDjangoQuerySet) (i : Nat) :
    (QDjangoQuerySet.at rows (QDjangoQuerySet.at rows qs i).2.1 i).1
        = (QDjangoQuerySet.at rows qs i).1
    ∧ (QDjangoQuerySet.at rows (QDjangoQuerySet.at rows qs i).2.1 i).2.1
        = (QDjangoQuerySet.at rows qs i).2.1
    ∧ (QDjangoQuerySet.at rows (QDjangoQuerySet.at rows qs i).2.1 i).2.2 = 0 := by
  obtain ⟨h1, h2, -⟩ := querySetAt_spec rows qs i
  set S1 := (QDjangoQuerySet.at rows qs i).2.1 with hS1
  cases hr : (QDjangoQuerySet.at rows qs i).1 with
  | some o =>
    have hc : S1.cache[i]? = some o := by rw [← h1, hr]
    unfold QDjangoQuerySet.at
    simp [hc, hr]
  | none =>
    have hex : S1.exhausted = true := h2 hr
    have hc : S1.cache[i]? = none := by rw [← h1, hr]
    unfold QDjangoQuerySet.at
    simp [hc, hex, hr]

/-- C3: `none()` short-circuits all execution-triggering reads: on the set it
returns, `count` answers 0 with no execution call, `size` answers 0 with no
execution call, `at(i)` fails for every index `i ≥ 0` with no execution
call, and dereferencing any iterator over it issues no execution call. -/
theorem none_set_is_inert :
    ∀ (rows : List ModelObject) (S : QDjangoQuerySet) (i : Nat) (it : const_iterator),
      (QDjangoQuerySet.count rows S.none).1 = 0
      ∧ (QDjangoQuerySet.count rows S.none).2.2 = 0
      ∧ (QDjangoQuerySet.size rows S.none).1 = 0
      ∧ (QDjangoQuerySet.size rows S.none).2.2 = 0
      ∧ (QDjangoQuerySet.at rows S.none i).1 = none
      ∧ (QDjangoQuerySet.at rows S.none i).2.2 = 0
      ∧ (const_iterator.t rows S.none it).execCalls = 0 := by
  intro rows S i it
  have hat : ∀ j : Nat,
      QDjangoQuerySet.at rows S.none j = (none, { S.none with exhausted := true }, 0) := by
    intro j
    unfold QDjangoQuerySet.at
    simp [QDjangoQuerySet.none, QDjangoQuerySet.fresh]
  refine ⟨?_, ?_, ?_, ?_, ?_, ?_, ?_⟩
  · simp [QDjangoQuerySet.count, QDjangoQuerySet.none, QDjangoQuerySet.fresh]
  · simp [QDjangoQuerySet.count, QDjangoQuerySet.none, QDjangoQuerySet.fresh]
  · simp [QDjangoQuerySet.size, QDjangoQuerySet.none, QDjangoQuerySet.fresh]
  · simp [QDjangoQuerySet.size, QDjangoQuerySet.none, QDjangoQuerySet.fresh]
  · rw [hat i]
  · rw [hat i]
  · by_cases hcond : it.m_fetched ≠ it.m_offset ∧ it.m_querySet.isSome
    · by_cases hneg : it.m_offset < 0
      · simp [const_iterator.t, hcond, QDjangoQuerySet.atI, hneg]
      · simp [const_iterator.t, hcond, QDjangoQuerySet.atI, hneg, hat]
    · simp [const_iterator.t, hcond]

/-- C4 counterexample: on a Query-Set whose cache was already warmed by an
earlier `at(0)`, two successive `at(0)` calls issue zero execution calls in
total, not exactly one — both are cache hits — refuting the claim for
arbitrary Query-Sets. -/
theorem at_twice_on_warm_set_issues_no_call :
    (QDjangoQuerySet.at demoRows warmSet 0).2.2
        + (QDjangoQuerySet.at demoRows (QDjangoQuerySet.at demoRows warmSet 0).2.1 0).2.2
      ≠ 1
    ∧ (QDjangoQuerySet.at demoRows warmSet 0).1
        = (QDjangoQuerySet.at demoRows (QDjangoQuerySet.at demoRows warmSet 0).2.1 0).1 := by
  decide

/-- C4 amended: calling `at(i)` twice in succession with no intervening
chaining returns equal results; the second call is served entirely from the
result cache (no execution call); the two calls issue at most one execution
call in total, and exactly one when the first call starts from an empty,
non-exhausted cache with a non-`Empty` predicate. -/
theorem at_twice_equal_and_cached :
    ∀ (rows : List ModelObject) (S : QDjangoQuerySet) (i : Nat),
      (QDjangoQuerySet.at rows (QDjangoQuerySet.at rows S i).2.1 i).1
          = (QDjangoQuerySet.at rows S i).1
      ∧ (QDjangoQuerySet.at rows (QDjangoQuerySet.at rows S i).2.1 i).2.2 = 0
      ∧ (QDjangoQuerySet.at rows S i).2.2 ≤ 1
      ∧ (S.cache = [] → S.exhausted = false → S.querySpec.whereClause ≠ .empty →
          (QDjangoQuerySet.at rows S i).2.2 = 1) := by
  intro rows S i
  obtain ⟨h1, h2, -⟩ := querySetAt_twice_from_cache rows S i
  obtain ⟨-, -, h3⟩ := querySetAt_spec rows S i
  refine ⟨h1, ?_, h3, ?_⟩
  · exact (querySetAt_twice_from_cache rows S i).2.2
  · intro hc hex hw
    unfold QDjangoQuerySet.at
    simp [hc, hex, hw]

/-- Witness for the amended idempotence theorem: from the fresh initial
Query-Set over the one-row table, the first `at(0)` issues exactly one
execution call. -/
theorem at_twice_equal_and_cached_witness :
    (QDjangoQuerySet.initial.cache = []
      ∧ QDjangoQuerySet.initial.exhausted = false
      ∧ QDjangoQuerySet.initial.querySpec.whereClause ≠ .empty)
    ∧ (QDjangoQuerySet.at demoRows QDjangoQuerySet.initial 0).2.2 = 1 :=
  ⟨⟨by decide, by decide, by decide⟩,
   (at_twice_equal_and_cached demoRows QDjangoQuerySet.initial 0).2.2.2
     (by decide) (by decide) (by decide)⟩

/-- C5: `get(p)` combines the predicate with the set's own one via `and`;
when that combined query matches no row it fails `DoesNotExist`, when it
matches exactly one row it returns that row's object, and when it matches
two or more rows it fails `MultipleObjectsReturned` — it never picks the
first of several matches. -/
theorem get_zero_one_many :
    ∀ (rows : List ModelObject) (S : QDjangoQuerySet) (p : QDjangoWhere),
      (rows.filter (fun o => (S.querySpec.whereClause.andWith p).matches o) = [] →
        QDjangoQuerySet.get rows S p = .error .doesNotExist)
      ∧ (∀ o, rows.filter (fun o => (S.querySpec.whereClause.andWith p).matches o) = [o] →
          QDjangoQuerySet.get rows S p = .ok o)
      ∧ (2 ≤ (rows.filter (fun o => (S.querySpec.whereClause.andWith p).matches o)).length →
          QDjangoQuerySet.get rows S p = .error .multipleObjectsReturned) := by
  intro rows S p
  refine ⟨?_, ?_, ?_⟩
  · intro h
    unfold QDjangoQuerySet.get
    rw [h]
    rfl
  · intro o h
    unfold QDjangoQuerySet.get
    rw [h]
    rfl
  · intro h
    unfold QDjangoQuerySet.get
    cases hm : rows.filter (fun o => (S.querySpec.whereClause.andWith p).matches o) with
    | nil => rw [hm] at h; simp at h
    | cons a t =>
      cases t with
      | nil => rw [hm] at h; simp at h
      | cons b t' => rfl

/-- Witness for the `get` theorem: two adults match `age >= 18` over a
two-row table, so `get` fails `MultipleObjectsReturned`. -/
theorem get_zero_one_many_witness :
    2 ≤ ([[("age", 20)], [("age", 30)]].filter
          (fun o => (QDjangoQuerySet.initial.querySpec.whereClause.andWith
              (.comparison "age" .ge 18)).matches o)).length
    ∧ QDjangoQuerySet.get [[("age", 20)], [("age", 30)]] QDjangoQuerySet.initial
        (.comparison "age" .ge 18) = .error .multipleObjectsReturned :=
  ⟨by decide,
   (get_zero_one_many [[("age", 20)], [("age", 30)]] QDjangoQuerySet.initial
      (.comparison "age" .ge 18)).2.2 (by decide)⟩

/-- C6: chained limits compose by re-basing.  For every Query-Set `S`,
`S.limit(2, 3).limit(1, 1)` equals `S.limit(3, 1)`; in general, the new
offset is the previous window's start plus the requested position, and
whenever the previous window had an end, the combined window's end never
exceeds it. -/
theorem limit_composes_by_rebasing :
    ∀ (S : QDjangoQuerySet) (pos : Nat) (length : Int),
      (S.limit 2 3).limit 1 1 = S.limit 3 1
      ∧ (S.limit pos length).querySpec.lowMark = S.querySpec.lowMark + pos
      ∧ (∀ hPrev hNew : Nat, S.querySpec.highMark = some hPrev →
          (S.limit pos length).querySpec.highMark = some hNew → hNew ≤ hPrev) := by
  intro S pos length
  refine ⟨?_, ?_, ?_⟩
  · cases hH : S.querySpec.highMark with
    | none =>
        simp only [QDjangoQuerySet.limit, QDjangoQuerySet.fresh, hH]
        norm_num
        omega
    | some H =>
        simp only [QDjangoQuerySet.limit, QDjangoQuerySet.fresh, hH]
        norm_num
        omega
  · by_cases hlen : length < 0 <;>
      simp [QDjangoQuerySet.limit, QDjangoQuerySet.fresh, hlen]
  · intro hPrev hNew h1 h2
    by_cases hlen : length < 0
    · simp [QDjangoQuerySet.limit, QDjangoQuerySet.fresh, hlen, h1] at h2
      omega
    · simp [QDjangoQuerySet.limit, QDjangoQuerySet.fresh, hlen, h1] at h2
      omega

/-- Witness for the limit-rebasing theorem: starting from a window ending at
10, a further `limit(2, 5)` yields the clamped end 7, and 7 ≤ 10. -/
theorem limit_composes_by_rebasing_witness :
    (QDjangoQuerySet.initial.limit 0 10).querySpec.highMark = some 10
    ∧ ((QDjangoQuerySet.initial.limit 0 10).limit 2 5).querySpec.highMark = some 7
    ∧ 7 ≤ 10 :=
  ⟨by decide, by decide,
   (limit_composes_by_rebasing (QDjangoQuerySet.initial.limit 0 10) 2 5).2.2 10 7
     (by decide) (by decide)⟩

/-- When the memo does not cover the current offset and the Query-Set pointer
is non-null, dereferencing always goes through `at()`. -/
theorem t_invokes_at_of_stale_memo (rows : List ModelObject) (qs : QDjangoQuerySet)
    (it : const_iterator) (h1 : it.m_fetched ≠ it.m_offset)
    (h2 : it.m_querySet.isSome = true) :
    (const_iterator.t rows qs it).atInvoked = true := by
  unfold const_iterator.t
  rw [if_pos ⟨h1, h2⟩]
  rcases hat2 : QDjangoQuerySet.atI rows qs it.m_offset with ⟨r, qs', c⟩
  cases r <;> simp [hat2]

/-- C7: a dereference positioned past the exhausted end of its Query-Set
(its offset at or beyond the cache length of an exhausted set, the memo not
ahead of the cache) yields the fail-fast null result with no execution
call; and in general a successful dereference returns either the object
memoised for exactly the current offset or the object `at(offset)` just
produced — never a previously fetched object for a different offset. -/
theorem deref_past_exhausted_end_fails :
    ∀ (rows : List ModelObject) (qs : QDjangoQuerySet) (it : const_iterator),
      (qs.exhausted = true → (qs.cache.length : Int) ≤ it.m_offset →
        it.m_fetched < (qs.cache.length : Int) →
        (const_iterator.t rows qs it).result = none
        ∧ (const_iterator.t rows qs it).execCalls = 0)
      ∧ (∀ o, (const_iterator.t rows qs it).result = some o →
          (it.m_fetched = it.m_offset ∧ o = it.m_object)
          ∨ (QDjangoQuerySet.atI rows qs it.m_offset).1 = some o) := by
  intro rows qs it
  constructor
  · intro hex hoff hfet
    have hne : it.m_fetched ≠ it.m_offset := by omega
    have hat : QDjangoQuerySet.atI rows qs it.m_offset = (none, qs, 0) := by
      unfold QDjangoQuerySet.atI
      rw [if_neg (by omega)]
      have hnone : qs.cache[it.m_offset.toNat]? = none := by
        apply List.getElem?_eq_none
        omega
      unfold QDjangoQuerySet.at
      simp [hnone, hex]
    cases hqs : it.m_querySet with
    | none => simp [const_iterator.t, hqs, hne]
    | some qid => simp [const_iterator.t, hqs, hne, hat]
  · intro o h
    unfold const_iterator.t at h
    by_cases hcond : it.m_fetched ≠ it.m_offset ∧ it.m_querySet.isSome
    · rw [if_pos hcond] at h
      rcases hat2 : QDjangoQuerySet.atI rows qs it.m_offset with ⟨r, qs', c⟩
      rw [hat2] at h
      cases r with
      | some o' =>
          right
          simp at h
          simp [h]
      | none => simp at h
    · rw [if_neg hcond] at h
      by_cases hfo : it.m_fetched = it.m_offset
      · simp only [hfo, if_true, reduceIte] at h
        left
        exact ⟨hfo, by simpa using h.symm⟩
      · simp [hfo] at h

/-- Witness for the past-the-end dereference theorem: on the exhausted
one-row set, a fresh iterator at offset 5 dereferences to the null result
with no execution call. -/
theorem deref_past_exhausted_end_fails_witness :
    (warmSet.exhausted = true
      ∧ (warmSet.cache.length : Int) ≤ (const_iterator.mkAt (some 0) 5).m_offset
      ∧ (const_iterator.mkAt (some 0) 5).m_fetched < (warmSet.cache.length : Int))
    ∧ (const_iterator.t demoRows warmSet (const_iterator.mkAt (some 0) 5)).result = none
    ∧ (const_iterator.t demoRows warmSet (const_iterator.mkAt (some 0) 5)).execCalls = 0 :=
  ⟨⟨by decide, by decide, by decide⟩,
   (deref_past_exhausted_end_fails demoRows warmSet (const_iterator.mkAt (some 0) 5)).1
     (by decide) (by decide) (by decide)⟩

/-- C8: iterator equality holds exactly when the two iterators hold the same
Query-Set pointer and the same offset; `!=` is its boolean negation; and
equality is unchanged by any modification of the memoised fetch state
(`m_fetched`, `m_object`), so it never inspects fetched content. -/
theorem iterator_equality_is_identity_and_offset :
    ∀ (a b : const_iterator),
      (const_iterator.eqIter a b = true
        ↔ a.m_querySet = b.m_querySet ∧ a.m_offset = b.m_offset)
      ∧ const_iterator.neIter a b = !const_iterator.eqIter a b
      ∧ (∀ (f₁ f₂ : Int) (o₁ o₂ : ModelObject),
          const_iterator.eqIter { a with m_fetched := f₁, m_object := o₁ }
              { b with m_fetched := f₂, m_object := o₂ }
            = const_iterator.eqIter a b) := by
  intro a b
  refine ⟨?_, ?_, ?_⟩
  · simp [const_iterator.eqIter]
  · simp [const_iterator.eqIter, const_iterator.neIter, bne, Bool.not_and]
  · intro f₁ f₂ o₁ o₂
    rfl

/-- C9: iterator arithmetic is coherent with offsets: `it + n` keeps the
Query-Set pointer and lands at `offset + n`; `(it + n) - it = n`; advancing
by `n` then retreating by `n` (via `+=`/`-=`), or stepping forward then
backward (via `++`/`--`), yields an iterator equal to the original; and the
distance of two iterators over the same Query-Set is the difference of
their offsets. -/
theorem iterator_arithmetic_coherent :
    ∀ (it a b : const_iterator) (n : Int),
      (const_iterator.add it n).m_querySet = it.m_querySet
      ∧ (const_iterator.add it n).m_offset = it.m_offset + n
      ∧ const_iterator.distTo (const_iterator.add it n) it = n
      ∧ const_iterator.eqIter
          (const_iterator.subAssign (const_iterator.addAssign it n) n) it = true
      ∧ const_iterator.eqIter ((const_iterator.incr it).decr) it = true
      ∧ (a.m_querySet = b.m_querySet →
          const_iterator.distTo a b = a.m_offset - b.m_offset) := by
  intro it a b n
  refine ⟨rfl, rfl, ?_, ?_, ?_, fun _ => rfl⟩
  · simp [const_iterator.distTo, const_iterator.add, const_iterator.mkAt]
  · simp [const_iterator.eqIter, const_iterator.subAssign, const_iterator.addAssign]
  · simp [const_iterator.eqIter, const_iterator.incr, const_iterator.decr]

/-- Witness for the iterator-arithmetic theorem: two iterators over the same
Query-Set at offsets 7 and 3 are at distance 7 - 3. -/
theorem iterator_arithmetic_coherent_witness :
    (const_iterator.mkAt (some 0) 7).m_querySet = (const_iterator.mkAt (some 0) 3).m_querySet
    ∧ const_iterator.distTo (const_iterator.mkAt (some 0) 7) (const_iterator.mkAt (some 0) 3)
        = 7 - 3 :=
  ⟨rfl,
   (iterator_arithmetic_coherent const_iterator.default
      (const_iterator.mkAt (some 0) 7) (const_iterator.mkAt (some 0) 3) 0).2.2.2.2.2 rfl⟩

/-- C10 counterexample: copying an iterator positioned at offset `-1` yields
a copy whose reset memo (`m_fetched = -1`) coincidentally matches the
offset, so its first dereference does not go through `at()` at all — it
returns the default-constructed object instead — refuting "the copy's first
dereference always goes through the Query-Set's at() again". -/
theorem copy_at_offset_minus_one_skips_at :
    (const_iterator.t demoRows QDjangoQuerySet.initial
        (const_iterator.copy (const_iterator.mkAt (some 0) (-1)))).atInvoked = false
    ∧ (const_iterator.t demoRows QDjangoQuerySet.initial
        (const_iterator.copy (const_iterator.mkAt (some 0) (-1)))).result
      = some defaultObject := by
  decide

/-- C10 amended: a copy compares equal to the original (same Query-Set
pointer, same offset) with its fetch memo reset; whenever the copied offset
differs from the `-1` memo sentinel (and the Query-Set pointer is
non-null), the copy's first dereference goes through `at()` again, and when
the shared cache already holds the offset that dereference is served from
the cache with no execution call. -/
theorem copy_resets_memo_and_refetches :
    ∀ (rows : List ModelObject) (qs : QDjangoQuerySet) (it : const_iterator),
      const_iterator.eqIter (const_iterator.copy it) it = true
      ∧ (it.m_querySet.isSome = true → it.m_offset ≠ -1 →
          (const_iterator.t rows qs (const_iterator.copy it)).atInvoked = true)
      ∧ (∀ o, it.m_querySet.isSome = true → 0 ≤ it.m_offset →
          qs.cache[it.m_offset.toNat]? = some o →
          (const_iterator.t rows qs (const_iterator.copy it)).result = some o
          ∧ (const_iterator.t rows qs (const_iterator.copy it)).execCalls = 0) := by
  intro rows qs it
  refine ⟨?_, ?_, ?_⟩
  · simp [const_iterator.eqIter, const_iterator.copy]
  · intro hs hoff
    exact t_invokes_at_of_stale_memo rows qs (const_iterator.copy it)
      (fun h => hoff (by simpa [const_iterator.copy] using h.symm))
      (by simpa [const_iterator.copy] using hs)
  · intro o hs hoff hcache
    have hat2 : QDjangoQuerySet.atI rows qs it.m_offset = (some o, qs, 0) := by
      unfold QDjangoQuerySet.atI
      rw [if_neg (not_lt.mpr hoff)]
      unfold QDjangoQuerySet.at
      simp [hcache]
    have h1 : (const_iterator.copy it).m_fetched ≠ (const_iterator.copy it).m_offset := by
      simp only [const_iterator.copy]
      omega
    unfold const_iterator.t
    rw [if_pos ⟨h1, by simpa [const_iterator.copy] using hs⟩]
    simp [const_iterator.copy, hat2]

/-- Witness for the amended copy theorem: copying a fresh iterator at offset
0 over the warmed one-row set dereferences to the cached row with no
execution call. -/
theorem copy_resets_memo_and_refetches_witness :
    ((const_iterator.mkAt (some 0) 0).m_querySet.isSome = true
      ∧ (0 : Int) ≤ (const_iterator.mkAt (some 0) 0).m_offset
      ∧ warmSet.cache[(const_iterator.mkAt (some 0) 0).m_offset.toNat]? = some [("id", 1)])
    ∧ (const_iterator.t demoRows warmSet
        (const_iterator.copy (const_iterator.mkAt (some 0) 0))).result = some [("id", 1)]
    ∧ (const_iterator.t demoRows warmSet
        (const_iterator.copy (const_iterator.mkAt (some 0) 0))).execCalls = 0 :=
  ⟨⟨by decide, by decide, by decide⟩,
   (copy_resets_memo_and_refetches demoRows warmSet (const_iterator.mkAt (some 0) 0)).2.2
     [("id", 1)] (by decide) (by decide) (by decide)⟩
